import Mathlib

/-!
Verification development for the HRBot chat-command dispatcher
(`src/index.js`): a shallow embedding of the permission model, the
moderation ledger with lazy expiry, the command routers for public chat
and direct messages, the emote-loop task registry, and the frozen-position
guard, together with theorems about the claims of the specification.

Modelling conventions:
* JS strings are `List Char`; user ids are opaque and modelled as `Nat`.
* JS numbers (timestamps in milliseconds, durations in minutes,
  coordinates) are modelled as exact rationals `ℚ`.
* Fields that the code may hold as `null` are `Option` values; the JS
  truthiness tests the code performs are modelled explicitly.
* Side effects (chat replies, room actions, persistent-store writes) are
  returned as explicit data: lists of `Reply` / `Action` values and a
  `Bool` flag recording that the store was rewritten.
-/

namespace HRBot

abbrev UserId := Nat

abbrev Str := List Char

/-- ASCII lower-casing of one character, as `String.prototype.toLowerCase`
acts on the ASCII range used by the bot's commands and emote names. -/
def lowerChar (c : Char) : Char :=
  if 'A' ≤ c ∧ c ≤ 'Z' then Char.ofNat (c.toNat + 32) else c

/-- Models `s.toLowerCase()` on a JS string, character by character. -/
def lowerStr (s : Str) : Str := s.map lowerChar

/-- Models JS truthiness of a number-or-null field: `null` and `0` are falsy,
every other number is truthy. -/
def truthyNum : Option ℚ → Bool
  | none => false
  | some q => q ≠ 0

/-- Models JS truthiness of a string-or-null field: `null` and the empty string
are falsy. -/
def truthyStr : Option Str → Bool
  | none => false
  | some s => s ≠ []

/-- One ban or mute record: `{ timestamp, duration_minutes }`.
`timestamp` is an epoch time in milliseconds (`new Date(x).getTime()`);
a `null` timestamp is read back by `new Date(null)` as epoch `0`,
modelled by `Option.getD 0`. -/
structure ModRecord where
  timestampMs : Option ℚ
  duration_minutes : Option ℚ
deriving DecidableEq

/-- The `users` object of `bannedCommands.json` / `mutedMessages.json`:
an association from user id to record (object keys are unique). -/
abbrev Ledger := List (UserId × ModRecord)

/-- Models `delete users[userId]` on an object modelled as an association list. -/
def ledgerDelete (users : Ledger) (uid : UserId) : Ledger :=
  users.filter (fun p => p.1 ≠ uid)

/-- Source function `isBanned(userId)` of `src/index.js`.  Returns the boolean answer,
the (possibly lazily-expired) ledger, and whether `saveJson` was invoked.
The expiry test is `elapsedMinutes > banInfo.duration_minutes`, guarded by
the JS truthiness of `duration_minutes` (so `null` and `0` durations are
never expired). -/
def isBanned (users : Ledger) (uid : UserId) (nowMs : ℚ) :
    Bool × Ledger × Bool :=
  match users.lookup uid with
  | none => (false, users, false)
  | some banInfo =>
    if truthyNum banInfo.duration_minutes then
      -- elapsedMinutes = (now - banTime) / (1000 * 60)
      if banInfo.duration_minutes.getD 0 <
          (nowMs - banInfo.timestampMs.getD 0) / (1000 * 60) then
        (false, ledgerDelete users uid, true)
      else
        (true, users, false)
    else
      (true, users, false)

/-- Source function `isMuted(userId)` of `src/index.js`.  Unlike `isBanned` there is no
truthiness guard: the comparison `elapsedMinutes > muteInfo.duration_minutes`
is always evaluated (a `null` duration compares as `0`, as in JS). -/
def isMuted (users : Ledger) (uid : UserId) (nowMs : ℚ) :
    Bool × Ledger × Bool :=
  match users.lookup uid with
  | none => (false, users, false)
  | some muteInfo =>
    if muteInfo.duration_minutes.getD 0 <
        (nowMs - muteInfo.timestampMs.getD 0) / (1000 * 60) then
      (false, ledgerDelete users uid, true)
    else
      (true, users, false)

/-- Source function `addBadWord(word)`: lower-case the word, append it if not already
present, report whether the set changed.  `badWords.words.push` appends. -/
def addBadWord (words : List Str) (word : Str) : Bool × List Str :=
  let lowerCaseWord := lowerStr word
  if lowerCaseWord ∈ words then (false, words)
  else (true, words ++ [lowerCaseWord])

/-- Source function `removeBadWord(word)`: filter out the lower-cased word, report whether
anything was removed. -/
def removeBadWord (words : List Str) (word : Str) : Bool × List Str :=
  let lowerCaseWord := lowerStr word
  let words2 := words.filter (fun w => w ≠ lowerCaseWord)
  if words2.length < words.length then (true, words2) else (false, words)

/-- Models `message.includes(word)`: substring containment of JS strings. -/
def includesSub (haystack needle : Str) : Bool :=
  decide (needle <:+: haystack)

/-- Source function `containsBadWord(message)`: lower-case the message, test every stored
word for substring containment (the `for ... of` loop with early `return`
is `List.any`). -/
def containsBadWord (words : List Str) (message : Str) : Bool :=
  words.any (fun word => includesSub (lowerStr message) word)

/-- The `roles.json` document: `{ owners: [ids], mods: [ids] }`. -/
structure Permissions where
  owners : List UserId
  mods : List UserId
deriving DecidableEq

/-- The derived role of a user. -/
inductive Role
  | basic
  | mod
  | owner
deriving DecidableEq

/-- Source function `getRole(userId)`: owners first, then mods, else basic. -/
def getRole (permissions : Permissions) (uid : UserId) : Role :=
  if uid ∈ permissions.owners then Role.owner
  else if uid ∈ permissions.mods then Role.mod
  else Role.basic

/-- Source function `hasPermission(userId, requiredRole)`. -/
def hasPermission (permissions : Permissions) (uid : UserId)
    (requiredRole : Role) : Bool :=
  let userRole := getRole permissions uid
  match requiredRole with
  | Role.basic => true
  | Role.mod => userRole = Role.mod ∨ userRole = Role.owner
  | Role.owner => userRole = Role.owner

/-- One entry of `config.emoteDefinitions`: `{ id, duration }`. -/
structure EmoteDef where
  id : Option Str
  duration : Option ℚ
deriving DecidableEq

/-- The slice of `config.json` the routers read: the command prefix, the
three channel-scope lists, the two command-permission lists (all storing
strings of the form `"!cmd"`), the emote table, and the AI feature flag. -/
structure Config where
  prefixChars : Str
  public_chat_only : List Str
  dm_public_chat : List Str
  dm_only : List Str
  permissionsMod : List Str
  permissionsOwner : List Str
  emoteDefs : List (Str × EmoteDef)
  aiReplyInWhispers : Bool

/-- The scope and permission tables are keyed by `'!' + command`
(the literal exclamation mark, independent of the configured prefix). -/
def bang (cmd : Str) : Str := '!' :: cmd

/-- requiredRole after the two sequential assignments
(`'mod'` first, `'owner'` last wins). -/
def requiredRoleFor (cfg : Config) (cmd : Str) : Role :=
  if bang cmd ∈ cfg.permissionsOwner then Role.owner
  else if bang cmd ∈ cfg.permissionsMod then Role.mod
  else Role.basic

/-- Whitespace test used to model `String.prototype.trim`. -/
def isSpaceChar (c : Char) : Bool := c.isWhitespace

/-- Models `s.trim()`. -/
def jsTrim (s : Str) : Str :=
  ((s.dropWhile isSpaceChar).reverse.dropWhile isSpaceChar).reverse

/-- Models `s.split(/ +/)` applied to an already-trimmed string: split on runs of
spaces, keeping only non-empty words. -/
def splitWords (s : Str) : List Str :=
  (s.splitOn ' ').filter (fun w => w ≠ [])

/-- Models `message.slice(config.botPrefix.length).trim().split(/ +/)`. -/
def parsedArgs (cfg : Config) (message : Str) : List Str :=
  splitWords (jsTrim (message.drop cfg.prefixChars.length))

/-- Models `args.shift().toLowerCase()`: the command name. -/
def parsedCommand (cfg : Config) (message : Str) : Str :=
  lowerStr ((parsedArgs cfg message).headD [])

/-- The argument list left after shifting off the command name. -/
def shiftedArgs (cfg : Config) (message : Str) : List Str :=
  (parsedArgs cfg message).tail

/-- Models `args[0] && args[0].startsWith('@') ? args[0].substring(1) : null`,
combined with the later `if (targetUsernameArg)` truthiness guard (a bare
`"@"` yields the falsy `""` and is treated as no target). -/
def parsedTargetArg (cfg : Config) (message : Str) : Option Str :=
  match shiftedArgs cfg message with
  | (('@' :: rest) :: _) => if rest = [] then none else some rest
  | _ => none

/-- Models JS `\w` on the ASCII range: letters, digits, underscore. -/
def isWordChar (c : Char) : Bool := c.isAlpha || c.isDigit || c = '_'

/-- The bare-emote pattern `/^(\w+)\s+@(\w+)$/` applied to the lower-cased
message: returns (emote command, target username) on a match.  The
character classes `\w` and `\s` are disjoint, so the greedy regex engine's
answer is computed by maximal munch. -/
def matchBareEmote (lmsg : Str) : Option (Str × Str) :=
  let w1 := lmsg.takeWhile isWordChar
  let r1 := lmsg.dropWhile isWordChar
  let sp := r1.takeWhile isSpaceChar
  let r2 := r1.dropWhile isSpaceChar
  match r2 with
  | '@' :: rest =>
    if w1 ≠ [] ∧ sp ≠ [] ∧ rest ≠ [] ∧ rest.all isWordChar then
      some (w1, rest)
    else none
  | _ => none

/-- A position `{x, y, z, facing}` as delivered by movement events. -/
structure Pos where
  x : ℚ
  y : ℚ
  z : ℚ
  facing : Str
deriving DecidableEq

/-- Chat replies the bot sends, one constructor per distinct `send` call
site relevant to the routers and handlers under verification. -/
inductive Reply
  | badWordWarning
  | noEmotePermission
  | unknownEmote (name : Str)
  | stoppedPrevLoop
  | loopStarted (name : Str)
  | loopStoppedOnError
  | targetNotFound (uname : Str)
  | dmOnlyChannel (cmd : Str)
  | publicOnlyChannel (cmd : Str)
  | noPermission
  | unknownCommandReply (cmd : Str)
  | aiResponse
  | cannotBanOwnerMod
  | alreadyBanned
  | bannedOk
  | cannotMuteOwnerMod
  | alreadyMuted
  | mutedOk
  | cannotKickOwnerModBot
  | kickedOk
  | cannotRoomBanOwnerModBot
  | roomBannedOk
  | cannotRoomMuteOwnerModBot
  | roomMutedOk
  | cannotFreezeOwnerModBot
  | frozenOk
  | freezeNoPosition
  | cannotSummonOwnerMod
  | summonedOk
  | summonNoPosition
  | mustBeOwner
  | alreadyOwner
  | ownerGranted
deriving DecidableEq

/-- Room actions the bot performs through the SDK. -/
inductive Action
  | teleport (uid : UserId) (p : Pos)
  | kick (uid : UserId)
  | roomBan (uid : UserId) (seconds : ℚ)
  | roomMute (uid : UserId) (seconds : ℚ)
  | emote (uid : UserId) (emoteId : Str)
deriving DecidableEq

/-- Where a chat-like event ends up in the router pipeline. -/
inductive Outcome
  | ignoredBot
  | ignoredMuted
  | ignoredBanned
  | badWord
  | bareEmote (target : UserId) (name : Str)
  | emoteLoop (name : Str)
  | noPrefixIgnored
  | aiReply
  | targetNotFound (uname : Str)
  | wrongChannel (cmd : Str)
  | noPermission (cmd : Str)
  | dispatched (cmd : Str)
  | unknown (cmd : Str)
deriving DecidableEq

/-- The observable result of routing one message: the pipeline outcome,
the replies sent, the ban/mute ledgers after lazy expiry, and an
instrumentation flag recording whether `hasPermission` (the role check)
was evaluated for the prefixed-command path. -/
structure RouteOut where
  outcome : Outcome
  replies : List Reply
  banned : Ledger
  muted : Ledger
  roleChecked : Bool
deriving DecidableEq

/-- The command names of the `switch` in the `chatCreate` handler: every
other command name falls to the `default` arm. -/
def publicKnownCommands : List Str :=
  List.map String.toList
    [ "help", "mod", "stop", "f1", "f2", "f3", "myid", "goto", "walk",
      "setbot", "t1", "all", "summon", "idban", "idunban", "idmute",
      "idunmute", "role", "unrole", "freeze", "unfreeze", "k", "b", "m",
      "vip", "invite", "boost", "voice", "equip", "remove", "color",
      "copy", "longsay", "sendfilecontent" ]

/-- The command names of the `switch` in the `messageCreate` handler. -/
def dmKnownCommands : List Str :=
  List.map String.toList
    [ "help", "mod", "emotelist", "addowner", "removeowner", "list",
      "bad", "rbad", "listbadword" ]

/-- The room roster as a list of (username, user id) pairs, and the SDK's
`bot.room.players.id(username)` lookup as an abstract function (the Event
Bridge is an external collaborator). -/
abbrev Roster := List (Str × UserId)

/-- The roster search of the bare-emote path:
`players.find(([u]) => u.username.toLowerCase() === targetUsername)`. -/
def rosterFindLowerUsername (roster : Roster) (uname : Str) : Option UserId :=
  match roster.find? (fun p => lowerStr p.1 = uname) with
  | some p => some p.2
  | none => none

/-- The bare-emote stage of the `chatCreate` handler.  `none` means the
stage falls through to the rest of the pipeline (no regex match, unknown
emote, or target not in the roster — the code's non-returning paths).
The `Bool` component records that `hasPermission(_, 'basic')` ran. -/
def bareEmoteStage (cfg : Config) (permissions : Permissions)
    (roster : Roster) (senderId : UserId) (lmsg : Str) :
    Option (Outcome × List Reply × Bool) :=
  match matchBareEmote lmsg with
  | none => none
  | some (emoteCommand, targetUsername) =>
    match cfg.emoteDefs.lookup emoteCommand with
    | none => none
    | some _ =>
      match rosterFindLowerUsername roster targetUsername with
      | none => none
      | some targetId =>
        if hasPermission permissions senderId Role.basic then
          (some (Outcome.bareEmote targetId emoteCommand, [], true))
        else
          (some (Outcome.bareEmote targetId emoteCommand,
            [Reply.noEmotePermission], true))

/-- Scope check, role check and dispatch of the `chatCreate` handler for a
prefixed command (the code past target resolution).  A command in neither
`public_chat_only` nor `dm_public_chat` is rejected as DM-only before the
role is evaluated; the `default` arm of the `switch` only logs a warning
and sends no reply. -/
def publicScopeRoleDispatch (cfg : Config) (permissions : Permissions)
    (banned muted : Ledger) (senderId : UserId) (cmd : Str) : RouteOut :=
  if bang cmd ∈ cfg.public_chat_only ∨ bang cmd ∈ cfg.dm_public_chat then
    if hasPermission permissions senderId (requiredRoleFor cfg cmd) = false then
      ⟨Outcome.noPermission cmd, [Reply.noPermission], banned, muted, true⟩
    else if cmd ∈ publicKnownCommands then
      ⟨Outcome.dispatched cmd, [], banned, muted, true⟩
    else
      ⟨Outcome.unknown cmd, [], banned, muted, true⟩
  else
    ⟨Outcome.wrongChannel cmd, [Reply.dmOnlyChannel cmd], banned, muted, false⟩

/-- Scope check, role check and dispatch of the `messageCreate` handler.
A command in neither `dm_only` nor `dm_public_chat` is rejected as
public-chat-only before the role is evaluated; here the `default` arm of
the `switch` does send an unknown-command reply. -/
def dmScopeRoleDispatch (cfg : Config) (permissions : Permissions)
    (banned muted : Ledger) (senderId : UserId) (cmd : Str) : RouteOut :=
  if bang cmd ∈ cfg.dm_only ∨ bang cmd ∈ cfg.dm_public_chat then
    if hasPermission permissions senderId (requiredRoleFor cfg cmd) = false then
      ⟨Outcome.noPermission cmd, [Reply.noPermission], banned, muted, true⟩
    else if cmd ∈ dmKnownCommands then
      ⟨Outcome.dispatched cmd, [], banned, muted, true⟩
    else
      ⟨Outcome.unknown cmd, [Reply.unknownCommandReply cmd], banned, muted, true⟩
  else
    ⟨Outcome.wrongChannel cmd, [Reply.publicOnlyChannel cmd], banned, muted, false⟩

/-- The `chatCreate` (public chat) event handler as one function: own-message
guard, mute/ban lazy checks, bad-word filter, bare-emote pattern, bare
emote-loop keyword, prefix check, parse, target resolution, then scope,
role and dispatch.  `rosterId` is `bot.room.players.id`. -/
def publicRoute (cfg : Config) (permissions : Permissions)
    (banned muted : Ledger) (badWords : List Str) (roster : Roster)
    (rosterId : Str → Option UserId) (botId senderId : UserId)
    (message : Str) (nowMs : ℚ) : RouteOut :=
  if senderId = botId then
    ⟨Outcome.ignoredBot, [], banned, muted, false⟩
  else if (isMuted muted senderId nowMs).1 then
    ⟨Outcome.ignoredMuted, [], banned, (isMuted muted senderId nowMs).2.1, false⟩
  else
    let muted1 := (isMuted muted senderId nowMs).2.1
    if (isBanned banned senderId nowMs).1 then
      ⟨Outcome.ignoredBanned, [], (isBanned banned senderId nowMs).2.1, muted1, false⟩
    else
      let banned1 := (isBanned banned senderId nowMs).2.1
      if containsBadWord badWords message then
        ⟨Outcome.badWord, [Reply.badWordWarning], banned1, muted1, false⟩
      else
        let lmsg := lowerStr message
        match bareEmoteStage cfg permissions roster senderId lmsg with
        | some (o, rs, rc) => ⟨o, rs, banned1, muted1, rc⟩
        | none =>
          match cfg.emoteDefs.find? (fun p => lmsg = lowerStr p.1) with
          | some p => ⟨Outcome.emoteLoop p.1, [], banned1, muted1, false⟩
          | none =>
            if (cfg.prefixChars.isPrefixOf lmsg) = false then
              ⟨Outcome.noPrefixIgnored, [], banned1, muted1, false⟩
            else
              match parsedTargetArg cfg message with
              | some targetUsername =>
                match rosterId targetUsername with
                | none =>
                  ⟨Outcome.targetNotFound targetUsername,
                    [Reply.targetNotFound targetUsername], banned1, muted1, false⟩
                | some _ =>
                  publicScopeRoleDispatch cfg permissions banned1 muted1
                    senderId (parsedCommand cfg message)
              | none =>
                publicScopeRoleDispatch cfg permissions banned1 muted1
                  senderId (parsedCommand cfg message)

/-- The `messageCreate` (direct message) event handler as one function:
own-message guard, mute/ban lazy checks, AI fallback for unprefixed text,
prefix check, parse, target resolution, then scope, role and dispatch.
Direct messages have no bad-word filter and no bare-emote stage. -/
def dmRoute (cfg : Config) (permissions : Permissions)
    (banned muted : Ledger) (rosterId : Str → Option UserId)
    (botId senderId : UserId) (message : Str) (nowMs : ℚ) : RouteOut :=
  if senderId = botId then
    ⟨Outcome.ignoredBot, [], banned, muted, false⟩
  else if (isMuted muted senderId nowMs).1 then
    ⟨Outcome.ignoredMuted, [], banned, (isMuted muted senderId nowMs).2.1, false⟩
  else
    let muted1 := (isMuted muted senderId nowMs).2.1
    if (isBanned banned senderId nowMs).1 then
      ⟨Outcome.ignoredBanned, [], (isBanned banned senderId nowMs).2.1, muted1, false⟩
    else
      let banned1 := (isBanned banned senderId nowMs).2.1
      if (cfg.prefixChars.isPrefixOf message) = false then
        if cfg.aiReplyInWhispers then
          ⟨Outcome.aiReply, [Reply.aiResponse], banned1, muted1, false⟩
        else
          ⟨Outcome.noPrefixIgnored, [], banned1, muted1, false⟩
      else
        match parsedTargetArg cfg message with
        | some targetUsername =>
          match rosterId targetUsername with
          | none =>
            ⟨Outcome.targetNotFound targetUsername,
              [Reply.targetNotFound targetUsername], banned1, muted1, false⟩
          | some _ =>
            dmScopeRoleDispatch cfg permissions banned1 muted1
              senderId (parsedCommand cfg message)
        | none =>
          dmScopeRoleDispatch cfg permissions banned1 muted1
            senderId (parsedCommand cfg message)

/-- One entry of the `emoteLoops` map: `{ timeoutId, emoteId, duration }`. -/
structure EmoteTask where
  timeoutId : Nat
  emoteId : Str
  duration : Option ℚ
deriving DecidableEq

/-- The background-task registry around the `emoteLoops` JS `Map`:
the map itself, a counter supplying fresh `setTimeout` handles, and the
list of handles passed to `clearTimeout`. -/
structure LoopState where
  loops : List (UserId × EmoteTask)
  nextTimeoutId : Nat
  cancelled : List Nat
deriving DecidableEq

/-- Models `Map.prototype.set`: replace the entry of an existing key in place,
otherwise append. -/
def mapSet (m : List (UserId × EmoteTask)) (k : UserId) (v : EmoteTask) :
    List (UserId × EmoteTask) :=
  if (m.lookup k).isSome then
    m.map (fun p => if p.1 = k then (k, v) else p)
  else m ++ [(k, v)]

/-- Models `Map.prototype.delete`. -/
def mapDelete (m : List (UserId × EmoteTask)) (k : UserId) :
    List (UserId × EmoteTask) :=
  m.filter (fun p => p.1 ≠ k)

/-- Models `clearTimeout` + `emoteLoops.delete` for one user, as done at every
cancellation site of `src/index.js`. -/
def cancelLoop (st : LoopState) (uid : UserId) (task : EmoteTask) : LoopState :=
  { st with loops := mapDelete st.loops uid,
            cancelled := task.timeoutId :: st.cancelled }

/-- Source function `handleEmoteLoopCommand(user, emoteName)`: cancel any existing loop of
the user, validate the emote, then run the first `performEmote` tick
(presence check, emote action, `setTimeout` + `Map.set`), and send the
confirmation.  `userPresent` models the roster presence re-validation and
`emoteOk` the success of the emote action (Event Bridge behaviour). -/
def handleEmoteLoopCommand (cfg : Config) (st : LoopState) (uid : UserId)
    (emoteName : Str) (userPresent emoteOk : Bool) :
    LoopState × List Reply :=
  let stopped :=
    match st.loops.lookup uid with
    | some task => (cancelLoop st uid task, [Reply.stoppedPrevLoop])
    | none => (st, [])
  let st1 := stopped.1
  let rs1 := stopped.2
  match cfg.emoteDefs.lookup emoteName with
  | none => (st1, rs1 ++ [Reply.unknownEmote emoteName])
  | some emoteDef =>
    if truthyStr emoteDef.id = false then
      (st1, rs1 ++ [Reply.unknownEmote emoteName])
    else if userPresent = false then
      -- the tick finds the user gone and self-terminates; the registry has
      -- no entry for the user at this point, so nothing is cancelled
      (st1, rs1 ++ [Reply.loopStarted emoteName])
    else if emoteOk = false then
      -- the emote action failed before the task was registered
      (st1, rs1 ++ [Reply.loopStarted emoteName])
    else
      ({ st1 with
          loops := mapSet st1.loops uid
            ⟨st1.nextTimeoutId, emoteDef.id.getD [], emoteDef.duration⟩,
          nextTimeoutId := st1.nextTimeoutId + 1 },
        rs1 ++ [Reply.loopStarted emoteName])

/-- The `playerMovementTeleportCorrection` feature configuration. -/
structure MoveCfg where
  enabled : Bool
  y_threshold : ℚ
  max_distance_teleport : ℚ

/-- The `frozenUsers.locked` object. -/
abbrev FrozenMap := List (UserId × Pos)

/-- The `playerMove` event handler: if the correction feature is enabled
and the mover is not the bot, a frozen user deviating from the locked
position by more than `0.01` on any of x, y, z is teleported back;
otherwise a large jump relative to the cached position triggers a
confirming teleport to the new position.  The source compares
`Math.sqrt(d2) > max_distance_teleport`; it is modelled without the square
root as `d2 > max^2`, equivalent for the non-negative configured maxima. -/
def playerMoveHandler (mc : MoveCfg) (frozenLocked : FrozenMap)
    (cache : UserId → Option Pos) (botId uid : UserId) (newPos : Pos) :
    List Action :=
  if mc.enabled = false then []
  else if uid = botId then []
  else
    match frozenLocked.lookup uid with
    | some lockedPos =>
      let tolerance : ℚ := 1 / 100
      if tolerance < |newPos.x - lockedPos.x| ∨
          tolerance < |newPos.y - lockedPos.y| ∨
          tolerance < |newPos.z - lockedPos.z| then
        [Action.teleport uid lockedPos]
      else []
    | none =>
      match cache uid with
      | some lastKnownPos =>
        let deltaY := |newPos.y - lastKnownPos.y|
        let d2 := (newPos.x - lastKnownPos.x) ^ 2 +
          (newPos.y - lastKnownPos.y) ^ 2 + (newPos.z - lastKnownPos.z) ^ 2
        if mc.y_threshold < deltaY ∨ mc.max_distance_teleport ^ 2 < d2 then
          [Action.teleport uid newPos]
        else []
      | none => []

/-- Models `obj[key] = value` on an object modelled as an association list. -/
def objSet (m : Ledger) (k : UserId) (v : ModRecord) : Ledger :=
  if (m.lookup k).isSome then
    m.map (fun p => if p.1 = k then (k, v) else p)
  else m ++ [(k, v)]

/-- Models `frozenUsers.locked[id] = pos`. -/
def frozenSet (m : FrozenMap) (k : UserId) (v : Pos) : FrozenMap :=
  if (m.lookup k).isSome then
    m.map (fun p => if p.1 = k then (k, v) else p)
  else m ++ [(k, v)]

/-- Source function `handleIdBanCommand`: mod permission, then the protected-role check,
then the already-banned check (which may lazily expire), then the write of
a permanent record `{ timestamp: null, duration_minutes: null }`. -/
def handleIdBanCommand (permissions : Permissions) (banned : Ledger)
    (senderId targetId : UserId) (nowMs : ℚ) : Ledger × List Reply :=
  if hasPermission permissions senderId Role.mod = false then
    (banned, [Reply.noPermission])
  else if getRole permissions targetId = Role.owner ∨
      getRole permissions targetId = Role.mod then
    (banned, [Reply.cannotBanOwnerMod])
  else
    let r := isBanned banned targetId nowMs
    if r.1 then (r.2.1, [Reply.alreadyBanned])
    else (objSet r.2.1 targetId ⟨none, none⟩, [Reply.bannedOk])

/-- Source function `handleIdMuteCommand`: mod permission, protected-role check, then a
15-minute record `{ duration_minutes: 15, timestamp: now }`. -/
def handleIdMuteCommand (permissions : Permissions) (muted : Ledger)
    (senderId targetId : UserId) (nowMs : ℚ) : Ledger × List Reply :=
  if hasPermission permissions senderId Role.mod = false then
    (muted, [Reply.noPermission])
  else if getRole permissions targetId = Role.owner ∨
      getRole permissions targetId = Role.mod then
    (muted, [Reply.cannotMuteOwnerMod])
  else
    let r := isMuted muted targetId nowMs
    if r.1 then (r.2.1, [Reply.alreadyMuted])
    else (objSet r.2.1 targetId ⟨some nowMs, some 15⟩, [Reply.mutedOk])

/-- Source function `handleKickCommand`: protected-role/bot check, then `bot.player.kick`. -/
def handleKickCommand (permissions : Permissions) (botId senderId targetId : UserId) :
    List Reply × List Action :=
  if getRole permissions targetId = Role.owner ∨
      getRole permissions targetId = Role.mod ∨ targetId = botId then
    ([Reply.cannotKickOwnerModBot], [])
  else
    ([Reply.kickedOk], [Action.kick targetId])

/-- Source function `handleBanCommand` (`!b`): protected-role/bot check, then a one-hour
room ban `bot.player.ban(targetUserId, 3600)`. -/
def handleBanCommand (permissions : Permissions) (botId senderId targetId : UserId) :
    List Reply × List Action :=
  if getRole permissions targetId = Role.owner ∨
      getRole permissions targetId = Role.mod ∨ targetId = botId then
    ([Reply.cannotRoomBanOwnerModBot], [])
  else
    ([Reply.roomBannedOk], [Action.roomBan targetId 3600])

/-- Source function `handleMuteCommand` (`!m`): protected-role/bot check, then a one-hour
room mute `bot.player.mute(targetUserId, 3600)`. -/
def handleMuteCommand (permissions : Permissions) (botId senderId targetId : UserId) :
    List Reply × List Action :=
  if getRole permissions targetId = Role.owner ∨
      getRole permissions targetId = Role.mod ∨ targetId = botId then
    ([Reply.cannotRoomMuteOwnerModBot], [])
  else
    ([Reply.roomMutedOk], [Action.roomMute targetId 3600])

/-- Source function `handleFreezeCommand`: protected-role/bot check, then the current
position of the target is locked in `frozenUsers.locked` and persisted.
`positionOf` is `bot.room.players.position`.  The third component records
whether `saveJson` was invoked. -/
def handleFreezeCommand (permissions : Permissions) (frozen : FrozenMap)
    (positionOf : UserId → Option Pos) (botId senderId targetId : UserId) :
    FrozenMap × List Reply × Bool :=
  if getRole permissions targetId = Role.owner ∨
      getRole permissions targetId = Role.mod ∨ targetId = botId then
    (frozen, [Reply.cannotFreezeOwnerModBot], false)
  else
    match positionOf targetId with
    | some initialPosition =>
      (frozenSet frozen targetId initialPosition, [Reply.frozenOk], true)
    | none => (frozen, [Reply.freezeNoPosition], false)

/-- Source function `handleSummonCommand`: roster lookup of the target username, the
protected-role check, then a teleport of the target to the sender's
position. -/
def handleSummonCommand (permissions : Permissions)
    (rosterId : Str → Option UserId) (positionOf : UserId → Option Pos)
    (senderId : UserId) (targetUsername : Str) :
    List Reply × List Action :=
  match rosterId targetUsername with
  | none => ([Reply.targetNotFound targetUsername], [])
  | some targetId =>
    if getRole permissions targetId = Role.owner ∨
        getRole permissions targetId = Role.mod then
      ([Reply.cannotSummonOwnerMod], [])
    else
      match positionOf senderId with
      | some senderPosition =>
        ([Reply.summonedOk], [Action.teleport targetId senderPosition])
      | none => ([Reply.summonNoPosition], [])

/-- Source function `handleAddOwnerCommand`: owner permission required; an already-owner
target is refused; otherwise the target is pushed onto `owners` and
spliced out of `mods` (`splice(indexOf, 1)` removes the first
occurrence, which is `List.erase`). -/
def handleAddOwnerCommand (permissions : Permissions)
    (senderId targetId : UserId) : Permissions × List Reply :=
  if hasPermission permissions senderId Role.owner = false then
    (permissions, [Reply.mustBeOwner])
  else if targetId ∈ permissions.owners then
    (permissions, [Reply.alreadyOwner])
  else
    (⟨permissions.owners ++ [targetId], permissions.mods.erase targetId⟩,
      [Reply.ownerGranted])

/-- Predicate stating that `w` occurs in `t` as a substring ignoring case — the specification's
notion of case-insensitive containment. -/
def ciSubstring (w t : Str) : Prop :=
  ∃ a m b : Str, t = a ++ m ++ b ∧ lowerStr m = lowerStr w

section AssocLemmas

variable {β : Type} (l : List (UserId × β)) (k : UserId)

theorem lookup_eq_none_iff : l.lookup k = none ↔ ∀ p ∈ l, p.1 ≠ k := by
  induction l with
  | nil => simp
  | cons p t ih =>
    obtain ⟨a, b⟩ := p
    by_cases hk : a = k
    · subst hk
      simp [List.lookup_cons]
    · have hbeq : (k == a) = false := by
        simp only [beq_eq_false_iff_ne]
        exact fun h => hk h.symm
      simp only [List.lookup_cons, hbeq, ih, List.mem_cons]
      constructor
      · intro hall q hq
        rcases hq with hq | hq
        · subst hq
          simpa using hk
        · exact hall q hq
      · intro hall q hq
        exact hall q (Or.inr hq)

theorem filter_eq_of_lookup_none (h : l.lookup k = none) :
    l.filter (fun p => p.1 ≠ k) = l := by
  rw [lookup_eq_none_iff] at h
  exact List.filter_eq_self.2 (fun p hp => by simpa using h p hp)

theorem lookup_filter_ne : (l.filter (fun p => p.1 ≠ k)).lookup k = none := by
  rw [lookup_eq_none_iff]
  intro p hp
  simpa using (List.mem_filter.1 hp).2

theorem countP_eq_zero_of_lookup_none (h : l.lookup k = none) :
    l.countP (fun p => p.1 = k) = 0 := by
  rw [lookup_eq_none_iff] at h
  exact List.countP_eq_zero.2 (fun p hp => by simpa using h p hp)

theorem lookup_append_of_none {l2 : List (UserId × β)} (h : l.lookup k = none) :
    (l ++ l2).lookup k = l2.lookup k := by
  induction l with
  | nil => simp
  | cons p t ih =>
    obtain ⟨a, b⟩ := p
    simp only [List.lookup_cons, List.cons_append] at h ⊢
    rcases hk : (k == a) with _ | _
    · rw [hk] at h; exact ih h
    · rw [hk] at h; cases h

end AssocLemmas

/-- The source's expiry comparison `elapsedMinutes > duration_minutes`,
rephrased over the raw millisecond clock. -/
theorem expiry_compare (d ts nowMs : ℚ) :
    d < (nowMs - ts) / (1000 * 60) ↔ ts + d * (1000 * 60) < nowMs := by
  rw [lt_div_iff₀ (by norm_num : (0 : ℚ) < 1000 * 60)]
  constructor <;> intro h <;> linarith

/-- C1 fails on the code at the expiry boundary: a 5-minute ban issued at
time 0, checked exactly at `now = issued_at + duration` (300000 ms),
satisfies the claim's condition `issued_at + duration_minutes <= now`, yet
`isBanned` returns `true` and leaves the record in place, because the
source tests `elapsedMinutes > duration_minutes` strictly. -/
theorem c1_counterexample :
    ((0 : ℚ) + 5 * (1000 * 60) ≤ 300000) ∧
    isBanned [(1, ⟨some 0, some 5⟩)] 1 300000
      = (true, [(1, ⟨some 0, some 5⟩)], false) := by
  constructor
  · norm_num
  · norm_num [isBanned, List.lookup_cons, truthyNum]

/-- C1 amended: expiry requires the elapsed time to strictly exceed the
duration (`issued_at + duration_minutes < now`); at exact equality the
record is kept and the check answers `true`.  For bans the duration must
moreover be truthy (non-null and non-zero): a zero-duration ban is never
expired.  Under those conditions the claim's behaviour holds: an expired
record makes the check answer `false`, deletes the record and rewrites
the store, and an unexpired record makes it answer `true` unchanged. -/
theorem c1_amended_lazy_expiry (bUsers mUsers : Ledger) (u v : UserId)
    (nowMs : ℚ) (rb rm : ModRecord)
    (hb : bUsers.lookup u = some rb) (hm : mUsers.lookup v = some rm) :
    (truthyNum rb.duration_minutes = true →
      (rb.timestampMs.getD 0 + rb.duration_minutes.getD 0 * (1000 * 60) < nowMs →
        isBanned bUsers u nowMs = (false, ledgerDelete bUsers u, true))
      ∧ (nowMs ≤ rb.timestampMs.getD 0 + rb.duration_minutes.getD 0 * (1000 * 60) →
        isBanned bUsers u nowMs = (true, bUsers, false)))
    ∧ (rb.duration_minutes = some 0 →
        isBanned bUsers u nowMs = (true, bUsers, false))
    ∧ (∀ dm : ℚ, rm.duration_minutes = some dm →
      (rm.timestampMs.getD 0 + dm * (1000 * 60) < nowMs →
        isMuted mUsers v nowMs = (false, ledgerDelete mUsers v, true))
      ∧ (nowMs ≤ rm.timestampMs.getD 0 + dm * (1000 * 60) →
        isMuted mUsers v nowMs = (true, mUsers, false))) := by
  refine ⟨?_, ?_, ?_⟩
  · intro htr
    constructor
    · intro hexp
      have h2 : rb.duration_minutes.getD 0
          < (nowMs - rb.timestampMs.getD 0) / (1000 * 60) :=
        (expiry_compare _ _ _).2 hexp
      simp [isBanned, hb, htr, h2]
    · intro hkeep
      have h2 : ¬ rb.duration_minutes.getD 0
          < (nowMs - rb.timestampMs.getD 0) / (1000 * 60) := by
        intro hc
        exact absurd ((expiry_compare _ _ _).1 hc) (not_lt.2 hkeep)
      simp [isBanned, hb, htr, h2]
  · intro hz
    simp [isBanned, hb, hz, truthyNum]
  · intro dm hdm
    constructor
    · intro hexp
      have h2 : rm.duration_minutes.getD 0
          < (nowMs - rm.timestampMs.getD 0) / (1000 * 60) := by
        rw [hdm]
        exact (expiry_compare _ _ _).2 hexp
      simp [isMuted, hm, h2]
    · intro hkeep
      have h2 : ¬ rm.duration_minutes.getD 0
          < (nowMs - rm.timestampMs.getD 0) / (1000 * 60) := by
        rw [hdm]
        intro hc
        exact absurd ((expiry_compare _ _ _).1 hc) (not_lt.2 hkeep)
      simp [isMuted, hm, h2]

/-- C1 amended, applied: a 5-minute ban issued at time 0 checked at
600000 ms (10 minutes) is expired — `isBanned` answers `false`, deletes
the record and rewrites the store. -/
theorem c1_witness :
    isBanned [(1, ⟨some 0, some 5⟩)] 1 600000
      = (false, ledgerDelete [(1, ⟨some 0, some 5⟩)] 1, true) :=
  ((c1_amended_lazy_expiry [(1, ⟨some 0, some 5⟩)] [(2, ⟨some 0, some 5⟩)]
      1 2 600000 ⟨some 0, some 5⟩ ⟨some 0, some 5⟩ rfl rfl).1
    (by norm_num [truthyNum])).1 (by norm_num)

/-- C7: a ban record whose `duration_minutes` is `null` is permanent:
`isBanned` answers `true` at every later time, never deletes the record
and never rewrites the store, because the truthiness guard on
`duration_minutes` skips the whole expiry branch. -/
theorem c7_permanent_ban_never_expires (users : Ledger) (uid : UserId)
    (nowMs : ℚ) (r : ModRecord) (hlk : users.lookup uid = some r)
    (hd : r.duration_minutes = none) :
    isBanned users uid nowMs = (true, users, false) := by
  simp [isBanned, hlk, hd, truthyNum]

/-- C7 applied: the permanent record written by `handleIdBanCommand`
(`{timestamp: null, duration_minutes: null}`) still answers banned after
an arbitrarily long time. -/
theorem c7_witness :
    isBanned [(3, ⟨none, none⟩)] 3 987654321000
      = (true, [(3, ⟨none, none⟩)], false) :=
  c7_permanent_ban_never_expires [(3, ⟨none, none⟩)] 3 987654321000
    ⟨none, none⟩ rfl rfl

/-- C9: bad-word matching is case-insensitive substring containment.
After a successful `addBadWord(w)`, `containsBadWord(t)` answers `true`
for every text containing `w` as a substring ignoring case; and when `w`
is already present ignoring case (the stored set consists of lower-case
words, the data-model invariant maintained by every insertion),
`addBadWord` answers `false` and leaves the set unchanged. -/
theorem c9_badwords_case_insensitive (words : List Str) (w t : Str) :
    ((addBadWord words w).1 = true → ciSubstring w t →
      containsBadWord (addBadWord words w).2 t = true)
    ∧ ((∀ u ∈ words, lowerStr u = u) →
      (∃ u ∈ words, lowerStr u = lowerStr w) →
      addBadWord words w = (false, words)) := by
  constructor
  · intro hadd hsub
    by_cases hmem : lowerStr w ∈ words
    · simp [addBadWord, hmem] at hadd
    · obtain ⟨a, m, b, hab, hlow⟩ := hsub
      have hinf : lowerStr w <:+: lowerStr t := by
        rw [hab]
        simp only [lowerStr, List.map_append]
        rw [← lowerStr, ← lowerStr, ← lowerStr, hlow]
        exact List.infix_append _ _ _
      have hone : includesSub (lowerStr t) (lowerStr w) = true := by
        simpa [includesSub] using hinf
      simp only [addBadWord, if_neg hmem, containsBadWord, List.any_eq_true]
      exact ⟨lowerStr w, by simp, hone⟩
  · intro hlower hpresent
    obtain ⟨u, hu, hequ⟩ := hpresent
    have : lowerStr w ∈ words := by
      rw [← hequ, hlower u hu]
      exact hu
    simp [addBadWord, this]

/-- C9 applied: `addBadWord("Spam")` into an empty set, then
`containsBadWord("no SPAMMING here")` answers `true`. -/
theorem c9_witness :
    containsBadWord (addBadWord [] (String.toList "Spam")).2
      (String.toList "no SPAMMING here") = true :=
  (c9_badwords_case_insensitive [] (String.toList "Spam")
      (String.toList "no SPAMMING here")).1 (by decide)
    ⟨String.toList "no ", String.toList "SPAM", String.toList "MING here",
      by decide, by decide⟩

/-- C8: `handleAddOwnerCommand` invoked by an owner on a target not yet in
the owner set pushes the target onto `owners` and splices it out of
`mods`, so afterwards the target is an owner and not a mod (even if it was
a mod before); and whenever the owner and mod sets were disjoint before
the call, they remain disjoint after it.  `mods` is duplicate-free, as a
set persisted and mutated only through membership-guarded pushes. -/
theorem c8_grant_owner_disjoint (permissions : Permissions)
    (senderId targetId : UserId)
    (hperm : hasPermission permissions senderId Role.owner = true)
    (hnotown : targetId ∉ permissions.owners)
    (hnodup : permissions.mods.Nodup) :
    targetId ∈ (handleAddOwnerCommand permissions senderId targetId).1.owners
    ∧ targetId ∉ (handleAddOwnerCommand permissions senderId targetId).1.mods
    ∧ (permissions.owners.Disjoint permissions.mods →
      (handleAddOwnerCommand permissions senderId targetId).1.owners.Disjoint
        (handleAddOwnerCommand permissions senderId targetId).1.mods) := by
  have hres : (handleAddOwnerCommand permissions senderId targetId).1
      = ⟨permissions.owners ++ [targetId], permissions.mods.erase targetId⟩ := by
    simp [handleAddOwnerCommand, hperm, hnotown]
  rw [hres]
  refine ⟨by simp, ?_, ?_⟩
  · intro hc
    exact absurd ((hnodup.mem_erase_iff.1 hc).1) (by simp)
  · intro hdisj a ha hb
    rcases List.mem_append.1 ha with ha1 | ha1
    · exact hdisj ha1 (List.mem_of_mem_erase hb)
    · have : a = targetId := by simpa using ha1
      subst this
      exact absurd ((hnodup.mem_erase_iff.1 hb).1) (by simp)

/-- C8 applied: promoting user 20 (currently a mod) by owner 10 leaves 20
in the owner set only. -/
theorem c8_witness :
    20 ∈ (handleAddOwnerCommand ⟨[10], [20]⟩ 10 20).1.owners
    ∧ 20 ∉ (handleAddOwnerCommand ⟨[10], [20]⟩ 10 20).1.mods :=
  let h := c8_grant_owner_disjoint ⟨[10], [20]⟩ 10 20 (by decide) (by decide)
    (by decide)
  ⟨h.1, h.2.1⟩

/-- C6: every punitive handler — ban (`!idban`, `!b`), mute (`!idmute`,
`!m`), kick (`!k`), freeze (`!freeze`) and summon (`!summon`) — refuses a
target that currently holds the mod or owner role, answers with a refusal
reply, and performs no punitive effect (no ledger write, no store write,
no room action), for every invoking user. -/
theorem c6_protected_roles_refused (permissions : Permissions)
    (targetId : UserId)
    (h : getRole permissions targetId = Role.owner ∨
      getRole permissions targetId = Role.mod) :
    (∀ banned senderId nowMs,
      (handleIdBanCommand permissions banned senderId targetId nowMs).1 = banned
      ∧ ((handleIdBanCommand permissions banned senderId targetId nowMs).2
            = [Reply.noPermission]
        ∨ (handleIdBanCommand permissions banned senderId targetId nowMs).2
            = [Reply.cannotBanOwnerMod]))
    ∧ (∀ muted senderId nowMs,
      (handleIdMuteCommand permissions muted senderId targetId nowMs).1 = muted
      ∧ ((handleIdMuteCommand permissions muted senderId targetId nowMs).2
            = [Reply.noPermission]
        ∨ (handleIdMuteCommand permissions muted senderId targetId nowMs).2
            = [Reply.cannotMuteOwnerMod]))
    ∧ (∀ botId senderId,
      handleKickCommand permissions botId senderId targetId
        = ([Reply.cannotKickOwnerModBot], []))
    ∧ (∀ botId senderId,
      handleBanCommand permissions botId senderId targetId
        = ([Reply.cannotRoomBanOwnerModBot], []))
    ∧ (∀ botId senderId,
      handleMuteCommand permissions botId senderId targetId
        = ([Reply.cannotRoomMuteOwnerModBot], []))
    ∧ (∀ frozen positionOf botId senderId,
      handleFreezeCommand permissions frozen positionOf botId senderId targetId
        = (frozen, [Reply.cannotFreezeOwnerModBot], false))
    ∧ (∀ rosterId positionOf senderId targetUsername,
      rosterId targetUsername = some targetId →
      handleSummonCommand permissions rosterId positionOf senderId targetUsername
        = ([Reply.cannotSummonOwnerMod], [])) := by
  refine ⟨?_, ?_, ?_, ?_, ?_, ?_, ?_⟩
  · intro banned senderId nowMs
    by_cases hs : hasPermission permissions senderId Role.mod
    · rcases h with h | h <;> simp [handleIdBanCommand, hs, h]
    · simp [handleIdBanCommand, hs]
  · intro muted senderId nowMs
    by_cases hs : hasPermission permissions senderId Role.mod
    · rcases h with h | h <;> simp [handleIdMuteCommand, hs, h]
    · simp [handleIdMuteCommand, hs]
  · intro botId senderId
    rcases h with h | h <;> simp [handleKickCommand, h]
  · intro botId senderId
    rcases h with h | h <;> simp [handleBanCommand, h]
  · intro botId senderId
    rcases h with h | h <;> simp [handleMuteCommand, h]
  · intro frozen positionOf botId senderId
    rcases h with h | h <;> simp [handleFreezeCommand, h]
  · intro rosterId positionOf senderId targetUsername hlk
    rcases h with h | h <;> simp [handleSummonCommand, hlk, h]

/-- C6 applied: user 5 is a mod; an attempt by an arbitrary sender 7 to
kick 5 is refused with no kick action issued. -/
theorem c6_witness :
    handleKickCommand ⟨[], [5]⟩ 0 7 5 = ([Reply.cannotKickOwnerModBot], []) :=
  (c6_protected_roles_refused ⟨[], [5]⟩ 5 (Or.inr (by decide))).2.2.1 0 7

/-- C3: the emote-loop start operation enforces at most one active task
per user.  Starting a loop for a user twice in a row (known emote with a
truthy id, user present, emote action succeeding) leaves exactly one
registry entry for that user; the second start cancels the first start's
scheduled timer (its handle is passed to `clearTimeout`) and the surviving
entry is the second task. -/
theorem c3_single_task_per_user (cfg : Config) (st0 : LoopState)
    (uid : UserId) (emoteName : Str) (d : EmoteDef)
    (hdef : cfg.emoteDefs.lookup emoteName = some d)
    (hid : truthyStr d.id = true) :
    ((handleEmoteLoopCommand cfg
        (handleEmoteLoopCommand cfg st0 uid emoteName true true).1
        uid emoteName true true).1.loops.countP (fun p => p.1 = uid) = 1)
    ∧ ((handleEmoteLoopCommand cfg
        (handleEmoteLoopCommand cfg st0 uid emoteName true true).1
        uid emoteName true true).1.loops.lookup uid
      = some ⟨st0.nextTimeoutId + 1, d.id.getD [], d.duration⟩)
    ∧ st0.nextTimeoutId ∈ (handleEmoteLoopCommand cfg
        (handleEmoteLoopCommand cfg st0 uid emoteName true true).1
        uid emoteName true true).1.cancelled := by
  -- specification of one successful start on an arbitrary registry state
  have hstep : ∀ st : LoopState,
      ((handleEmoteLoopCommand cfg st uid emoteName true true).1.loops
        = st.loops.filter (fun p => p.1 ≠ uid)
          ++ [(uid, ⟨st.nextTimeoutId, d.id.getD [], d.duration⟩)])
      ∧ ((handleEmoteLoopCommand cfg st uid emoteName true true).1.nextTimeoutId
        = st.nextTimeoutId + 1)
      ∧ ((handleEmoteLoopCommand cfg st uid emoteName true true).1.cancelled
        = (match st.loops.lookup uid with
          | some task0 => task0.timeoutId :: st.cancelled
          | none => st.cancelled)) := by
    intro st
    rcases h0 : st.loops.lookup uid with _ | task0
    · have hisnone : (st.loops.lookup uid).isSome = false := by
        rw [h0]; rfl
      have hcall : handleEmoteLoopCommand cfg st uid emoteName true true
          = ({ st with
                loops := st.loops
                  ++ [(uid, ⟨st.nextTimeoutId, d.id.getD [], d.duration⟩)],
                nextTimeoutId := st.nextTimeoutId + 1 },
              [Reply.loopStarted emoteName]) := by
        simp [handleEmoteLoopCommand, h0, hdef, hid, mapSet, hisnone]
      rw [hcall]
      refine ⟨?_, rfl, rfl⟩
      rw [filter_eq_of_lookup_none st.loops uid h0]
    · have hisnone : ((st.loops.filter (fun p => p.1 ≠ uid)).lookup uid).isSome
          = false := by
        rw [lookup_filter_ne st.loops uid]; rfl
      have hcall : handleEmoteLoopCommand cfg st uid emoteName true true
          = ({ st with
                loops := st.loops.filter (fun p => p.1 ≠ uid)
                  ++ [(uid, ⟨st.nextTimeoutId, d.id.getD [], d.duration⟩)],
                nextTimeoutId := st.nextTimeoutId + 1,
                cancelled := task0.timeoutId :: st.cancelled },
              [Reply.stoppedPrevLoop, Reply.loopStarted emoteName]) := by
        simp [handleEmoteLoopCommand, h0, hdef, hid, mapSet, hisnone,
          cancelLoop, mapDelete]
      rw [hcall]
      exact ⟨rfl, rfl, rfl⟩
  obtain ⟨hl1, hn1, _⟩ := hstep st0
  obtain ⟨hl2, _, hc2⟩ :=
    hstep (handleEmoteLoopCommand cfg st0 uid emoteName true true).1
  -- after the first start the filtered prefix carries no entry for the user
  have hF0 : (st0.loops.filter (fun p => p.1 ≠ uid)).lookup uid = none :=
    lookup_filter_ne st0.loops uid
  have hlk1 : (handleEmoteLoopCommand cfg st0 uid emoteName true true).1.loops.lookup
      uid = some ⟨st0.nextTimeoutId, d.id.getD [], d.duration⟩ := by
    rw [hl1, lookup_append_of_none _ uid hF0]
    simp [List.lookup_cons]
  have hfilter1 : (handleEmoteLoopCommand cfg st0 uid emoteName
      true true).1.loops.filter (fun p => p.1 ≠ uid)
      = st0.loops.filter (fun p => p.1 ≠ uid) := by
    rw [hl1, List.filter_append, filter_eq_of_lookup_none _ uid hF0]
    simp
  refine ⟨?_, ?_, ?_⟩
  · rw [hl2, hfilter1, List.countP_append,
      countP_eq_zero_of_lookup_none _ uid hF0, hn1]
    simp
  · rw [hl2, hfilter1, lookup_append_of_none _ uid hF0, hn1]
    simp [List.lookup_cons]
  · rw [hc2, hlk1]
    simp

/-- C3 applied: two successive starts of a `wave` loop for user 4 from an
empty registry leave exactly one entry for user 4, and the first start's
timer handle (0) was cancelled. -/
theorem c3_witness :
    ((handleEmoteLoopCommand ⟨[], [], [], [], [], [],
        [(String.toList "wave", ⟨some (String.toList "emote-wave"), some 3⟩)], false⟩
      (handleEmoteLoopCommand ⟨[], [], [], [], [], [],
        [(String.toList "wave", ⟨some (String.toList "emote-wave"), some 3⟩)], false⟩
        ⟨[], 0, []⟩ 4 (String.toList "wave") true true).1
      4 (String.toList "wave") true true).1.loops.countP (fun p => p.1 = 4) = 1)
    ∧ (0 ∈ (handleEmoteLoopCommand ⟨[], [], [], [], [], [],
        [(String.toList "wave", ⟨some (String.toList "emote-wave"), some 3⟩)], false⟩
      (handleEmoteLoopCommand ⟨[], [], [], [], [], [],
        [(String.toList "wave", ⟨some (String.toList "emote-wave"), some 3⟩)], false⟩
        ⟨[], 0, []⟩ 4 (String.toList "wave") true true).1
      4 (String.toList "wave") true true).1.cancelled) :=
  let h := c3_single_task_per_user
    ⟨[], [], [], [], [], [],
      [(String.toList "wave", ⟨some (String.toList "emote-wave"), some 3⟩)], false⟩
    ⟨[], 0, []⟩ 4 (String.toList "wave")
    ⟨some (String.toList "emote-wave"), some 3⟩ (by decide) (by decide)
  ⟨h.1, h.2.2⟩

/-- C4 fails on the code as stated: the frozen-position enforcement sits
inside `if (config.features.playerMovementTeleportCorrection.enabled &&
...)`.  With the feature disabled, non-bot user 2, frozen at the origin,
moves a full unit on the x axis (far beyond the 0.01 tolerance), yet no
corrective teleport is issued. -/
theorem c4_counterexample :
    playerMoveHandler ⟨false, 1, 5⟩ [(2, ⟨0, 0, 0, []⟩)] (fun _ => none) 1 2
      ⟨1, 0, 0, []⟩ = []
    ∧ playerMoveHandler ⟨false, 1, 5⟩ [(2, ⟨0, 0, 0, []⟩)] (fun _ => none) 1 2
      ⟨1, 0, 0, []⟩ ≠ [Action.teleport 2 ⟨0, 0, 0, []⟩] := by
  refine ⟨rfl, ?_⟩
  rw [show playerMoveHandler ⟨false, 1, 5⟩ [(2, ⟨0, 0, 0, []⟩)] (fun _ => none)
      1 2 ⟨1, 0, 0, []⟩ = [] from rfl]
  simp

/-- C4 amended: provided the movement-teleport-correction feature is
enabled, a movement event of a non-bot frozen user deviating from the
locked position by more than 0.01 on any of the x, y, z axes triggers
exactly one corrective teleport back to the locked pose, and a movement
within the per-axis tolerance triggers none. -/
theorem c4_frozen_enforcement (mc : MoveCfg) (frozenLocked : FrozenMap)
    (cache : UserId → Option Pos) (botId uid : UserId)
    (lockedPos newPos : Pos)
    (hen : mc.enabled = true) (hbot : uid ≠ botId)
    (hfr : frozenLocked.lookup uid = some lockedPos) :
    (((1 : ℚ) / 100 < |newPos.x - lockedPos.x|
        ∨ (1 : ℚ) / 100 < |newPos.y - lockedPos.y|
        ∨ (1 : ℚ) / 100 < |newPos.z - lockedPos.z|) →
      playerMoveHandler mc frozenLocked cache botId uid newPos
        = [Action.teleport uid lockedPos])
    ∧ ((|newPos.x - lockedPos.x| ≤ (1 : ℚ) / 100
        ∧ |newPos.y - lockedPos.y| ≤ (1 : ℚ) / 100
        ∧ |newPos.z - lockedPos.z| ≤ (1 : ℚ) / 100) →
      playerMoveHandler mc frozenLocked cache botId uid newPos = []) := by
  constructor
  · intro hdev
    simp only [playerMoveHandler, hen, hfr]
    rw [if_neg (by simp), if_neg hbot, if_pos hdev]
  · intro hin
    have hnot : ¬ ((1 : ℚ) / 100 < |newPos.x - lockedPos.x|
        ∨ (1 : ℚ) / 100 < |newPos.y - lockedPos.y|
        ∨ (1 : ℚ) / 100 < |newPos.z - lockedPos.z|) := by
      push_neg
      exact ⟨hin.1, hin.2.1, hin.2.2⟩
    simp only [playerMoveHandler, hen, hfr]
    rw [if_neg (by simp), if_neg hbot, if_neg hnot]

/-- C4 amended, applied: with the feature enabled, frozen user 2 moving
from the origin to (1,0,0) is teleported straight back, and a move to
(0.001, 0, 0) stays untouched. -/
theorem c4_witness :
    playerMoveHandler ⟨true, 1, 5⟩ [(2, ⟨0, 0, 0, []⟩)] (fun _ => none) 1 2
      ⟨1, 0, 0, []⟩ = [Action.teleport 2 ⟨0, 0, 0, []⟩]
    ∧ playerMoveHandler ⟨true, 1, 5⟩ [(2, ⟨0, 0, 0, []⟩)] (fun _ => none) 1 2
      ⟨1 / 1000, 0, 0, []⟩ = [] :=
  ⟨(c4_frozen_enforcement ⟨true, 1, 5⟩ [(2, ⟨0, 0, 0, []⟩)] (fun _ => none) 1 2
      ⟨0, 0, 0, []⟩ ⟨1, 0, 0, []⟩ rfl (by decide) rfl).1
        (by left; norm_num),
    (c4_frozen_enforcement ⟨true, 1, 5⟩ [(2, ⟨0, 0, 0, []⟩)] (fun _ => none) 1 2
      ⟨0, 0, 0, []⟩ ⟨1 / 1000, 0, 0, []⟩ rfl (by decide) rfl).2
        (by norm_num [abs_le])⟩

/-- A direct message from a non-bot, non-muted, non-banned sender that
starts with the prefix and whose target reference (if any) resolves
reaches the scope/role/dispatch stage of `messageCreate`. -/
theorem dmRoute_reaches_dispatch (cfg : Config) (permissions : Permissions)
    (banned muted : Ledger) (rosterId : Str → Option UserId)
    (botId senderId : UserId) (message : Str) (nowMs : ℚ)
    (hbot : senderId ≠ botId)
    (hmute : (isMuted muted senderId nowMs).1 = false)
    (hban : (isBanned banned senderId nowMs).1 = false)
    (hpre : cfg.prefixChars.isPrefixOf message = true)
    (htarget : ∀ u, parsedTargetArg cfg message = some u → (rosterId u).isSome) :
    dmRoute cfg permissions banned muted rosterId botId senderId message nowMs
      = dmScopeRoleDispatch cfg permissions (isBanned banned senderId nowMs).2.1
          (isMuted muted senderId nowMs).2.1 senderId
          (parsedCommand cfg message) := by
  rcases hp : parsedTargetArg cfg message with _ | u
  · simp [dmRoute, hbot, hmute, hban, hpre, hp]
  · have hs := htarget u hp
    rcases hr : rosterId u with _ | tid
    · rw [hr] at hs; cases hs
    · simp [dmRoute, hbot, hmute, hban, hpre, hp, hr]

/-- A public chat message from a non-bot, non-muted, non-banned sender
that passes the bad-word filter, matches neither bare-emote form, and
starts with the prefix, with a resolving target reference (if any),
reaches the scope/role/dispatch stage of `chatCreate`. -/
theorem publicRoute_reaches_dispatch (cfg : Config)
    (permissions : Permissions) (banned muted : Ledger)
    (badWords : List Str) (roster : Roster)
    (rosterId : Str → Option UserId) (botId senderId : UserId)
    (message : Str) (nowMs : ℚ)
    (hbot : senderId ≠ botId)
    (hmute : (isMuted muted senderId nowMs).1 = false)
    (hban : (isBanned banned senderId nowMs).1 = false)
    (hbad : containsBadWord badWords message = false)
    (hbare : bareEmoteStage cfg permissions roster senderId
      (lowerStr message) = none)
    (hloop : cfg.emoteDefs.find?
      (fun p => lowerStr message = lowerStr p.1) = none)
    (hpre : cfg.prefixChars.isPrefixOf (lowerStr message) = true)
    (htarget : ∀ u, parsedTargetArg cfg message = some u → (rosterId u).isSome) :
    publicRoute cfg permissions banned muted badWords roster rosterId botId
        senderId message nowMs
      = publicScopeRoleDispatch cfg permissions
          (isBanned banned senderId nowMs).2.1
          (isMuted muted senderId nowMs).2.1 senderId
          (parsedCommand cfg message) := by
  rcases hp : parsedTargetArg cfg message with _ | u
  · simp [publicRoute, hbot, hmute, hban, hbad, hbare, hloop, hpre, hp]
  · have hs := htarget u hp
    rcases hr : rosterId u with _ | tid
    · rw [hr] at hs; cases hs
    · simp [publicRoute, hbot, hmute, hban, hbad, hbare, hloop, hpre, hp, hr]

/-- C2: a prefixed command sent as a direct message whose scope does not
allow direct messages (it is in neither `dm_only` nor `dm_public_chat`,
e.g. a `public_chat_only` command) is rejected with the wrong-channel
reply before the role check ever runs — the conclusion holds for every
permission state, so a basic user and an owner receive the identical
rejection. -/
theorem c2_dm_scope_precedes_role (cfg : Config) (permissions : Permissions)
    (banned muted : Ledger) (rosterId : Str → Option UserId)
    (botId senderId : UserId) (message : Str) (nowMs : ℚ)
    (hbot : senderId ≠ botId)
    (hmute : (isMuted muted senderId nowMs).1 = false)
    (hban : (isBanned banned senderId nowMs).1 = false)
    (hpre : cfg.prefixChars.isPrefixOf message = true)
    (htarget : ∀ u, parsedTargetArg cfg message = some u → (rosterId u).isSome)
    (h1 : bang (parsedCommand cfg message) ∉ cfg.dm_only)
    (h2 : bang (parsedCommand cfg message) ∉ cfg.dm_public_chat) :
    ((dmRoute cfg permissions banned muted rosterId botId senderId message
        nowMs).outcome = Outcome.wrongChannel (parsedCommand cfg message))
    ∧ ((dmRoute cfg permissions banned muted rosterId botId senderId message
        nowMs).replies
      = [Reply.publicOnlyChannel (parsedCommand cfg message)])
    ∧ ((dmRoute cfg permissions banned muted rosterId botId senderId message
        nowMs).roleChecked = false) := by
  rw [dmRoute_reaches_dispatch cfg permissions banned muted rosterId botId
    senderId message nowMs hbot hmute hban hpre htarget]
  have hscope : ¬ (bang (parsedCommand cfg message) ∈ cfg.dm_only
      ∨ bang (parsedCommand cfg message) ∈ cfg.dm_public_chat) := by
    rintro (hc | hc)
    · exact h1 hc
    · exact h2 hc
  unfold dmScopeRoleDispatch
  rw [if_neg hscope]
  exact ⟨rfl, rfl, rfl⟩

/-- A small concrete configuration for instantiating the router theorems:
prefix `!`, `!summon` and `!zzz` restricted to public chat, `!qqq`
restricted to direct messages, no role overrides, no emotes. -/
def cfgEx : Config :=
  ⟨String.toList "!",
    [String.toList "!summon", String.toList "!zzz"],
    [],
    [String.toList "!qqq"],
    [], [], [], false⟩

/-- C2 applied: `!summon` (public-chat-only) sent via DM by user 1 — an
owner — is rejected with the wrong-channel reply and no role check. -/
theorem c2_witness :
    ((dmRoute cfgEx ⟨[1], []⟩ [] [] (fun _ => none) 0 1
        (String.toList "!summon") 0).outcome
      = Outcome.wrongChannel (parsedCommand cfgEx (String.toList "!summon")))
    ∧ ((dmRoute cfgEx ⟨[1], []⟩ [] [] (fun _ => none) 0 1
        (String.toList "!summon") 0).replies
      = [Reply.publicOnlyChannel (parsedCommand cfgEx (String.toList "!summon"))])
    ∧ ((dmRoute cfgEx ⟨[1], []⟩ [] [] (fun _ => none) 0 1
        (String.toList "!summon") 0).roleChecked = false) :=
  c2_dm_scope_precedes_role cfgEx ⟨[1], []⟩ [] [] (fun _ => none) 0 1
    (String.toList "!summon") 0 (by decide) rfl rfl (by decide)
    (fun u hu => by
      rw [show parsedTargetArg cfgEx (String.toList "!summon") = none from rfl]
        at hu
      cases hu)
    (by decide) (by decide)

/-- C10: a prefixed command that appears in none of the three scope lists
is rejected in both channels before any role check or dispatch: public
chat replies that the command is DM-only, a direct message replies that
it works only in public chat, and in neither channel does a handler run
(the outcome is a wrong-channel rejection, not a dispatch). -/
theorem c10_unscoped_command_rejected_everywhere (cfg : Config)
    (permissions : Permissions) (banned muted : Ledger)
    (badWords : List Str) (roster : Roster)
    (rosterId : Str → Option UserId) (botId senderId : UserId)
    (message : Str) (nowMs : ℚ)
    (hbot : senderId ≠ botId)
    (hmute : (isMuted muted senderId nowMs).1 = false)
    (hban : (isBanned banned senderId nowMs).1 = false)
    (hbad : containsBadWord badWords message = false)
    (hbare : bareEmoteStage cfg permissions roster senderId
      (lowerStr message) = none)
    (hloop : cfg.emoteDefs.find?
      (fun p => lowerStr message = lowerStr p.1) = none)
    (hpreL : cfg.prefixChars.isPrefixOf (lowerStr message) = true)
    (hpre : cfg.prefixChars.isPrefixOf message = true)
    (htarget : ∀ u, parsedTargetArg cfg message = some u → (rosterId u).isSome)
    (h1 : bang (parsedCommand cfg message) ∉ cfg.public_chat_only)
    (h2 : bang (parsedCommand cfg message) ∉ cfg.dm_public_chat)
    (h3 : bang (parsedCommand cfg message) ∉ cfg.dm_only) :
    ((publicRoute cfg permissions banned muted badWords roster rosterId botId
        senderId message nowMs).outcome
      = Outcome.wrongChannel (parsedCommand cfg message))
    ∧ ((publicRoute cfg permissions banned muted badWords roster rosterId botId
        senderId message nowMs).replies
      = [Reply.dmOnlyChannel (parsedCommand cfg message)])
    ∧ ((publicRoute cfg permissions banned muted badWords roster rosterId botId
        senderId message nowMs).roleChecked = false)
    ∧ ((dmRoute cfg permissions banned muted rosterId botId senderId message
        nowMs).outcome = Outcome.wrongChannel (parsedCommand cfg message))
    ∧ ((dmRoute cfg permissions banned muted rosterId botId senderId message
        nowMs).replies
      = [Reply.publicOnlyChannel (parsedCommand cfg message)])
    ∧ ((dmRoute cfg permissions banned muted rosterId botId senderId message
        nowMs).roleChecked = false) := by
  rw [publicRoute_reaches_dispatch cfg permissions banned muted badWords roster
    rosterId botId senderId message nowMs hbot hmute hban hbad hbare hloop
    hpreL htarget]
  rw [dmRoute_reaches_dispatch cfg permissions banned muted rosterId botId
    senderId message nowMs hbot hmute hban hpre htarget]
  have hscopeP : ¬ (bang (parsedCommand cfg message) ∈ cfg.public_chat_only
      ∨ bang (parsedCommand cfg message) ∈ cfg.dm_public_chat) := by
    rintro (hc | hc)
    · exact h1 hc
    · exact h2 hc
  have hscopeD : ¬ (bang (parsedCommand cfg message) ∈ cfg.dm_only
      ∨ bang (parsedCommand cfg message) ∈ cfg.dm_public_chat) := by
    rintro (hc | hc)
    · exact h3 hc
    · exact h2 hc
  unfold publicScopeRoleDispatch dmScopeRoleDispatch
  rw [if_neg hscopeP, if_neg hscopeD]
  exact ⟨rfl, rfl, rfl, rfl, rfl, rfl⟩

/-- C10 applied: `!nope` is in no scope list; user 1 sending it in public
chat and by DM gets the two wrong-channel rejections with no role check. -/
theorem c10_witness :
    ((publicRoute cfgEx ⟨[], []⟩ [] [] [] [] (fun _ => none) 0 1
        (String.toList "!nope") 0).replies
      = [Reply.dmOnlyChannel (parsedCommand cfgEx (String.toList "!nope"))])
    ∧ ((publicRoute cfgEx ⟨[], []⟩ [] [] [] [] (fun _ => none) 0 1
        (String.toList "!nope") 0).roleChecked = false)
    ∧ ((dmRoute cfgEx ⟨[], []⟩ [] [] (fun _ => none) 0 1
        (String.toList "!nope") 0).replies
      = [Reply.publicOnlyChannel (parsedCommand cfgEx (String.toList "!nope"))])
    ∧ ((dmRoute cfgEx ⟨[], []⟩ [] [] (fun _ => none) 0 1
        (String.toList "!nope") 0).roleChecked = false) :=
  let h := c10_unscoped_command_rejected_everywhere cfgEx ⟨[], []⟩ [] [] [] []
    (fun _ => none) 0 1 (String.toList "!nope") 0 (by decide) rfl rfl rfl rfl
    rfl (by decide) (by decide)
    (fun u hu => by
      rw [show parsedTargetArg cfgEx (String.toList "!nope") = none from rfl]
        at hu
      cases hu)
    (by decide) (by decide) (by decide)
  ⟨h.2.1, h.2.2.1, h.2.2.2.2.1, h.2.2.2.2.2⟩

/-- C5 fails on the code in the public-chat path: `!zzz` passes the prefix
check and the public scope list of the sample configuration, matches no
`switch` arm, and the `default` arm only logs — the router stays silent
(no reply at all), while the claim promises unknown-command feedback in
both paths. -/
theorem c5_counterexample :
    ((publicRoute cfgEx ⟨[], []⟩ [] [] [] [] (fun _ => none) 0 1
        (String.toList "!zzz") 0).outcome
      = Outcome.unknown (String.toList "zzz"))
    ∧ ((publicRoute cfgEx ⟨[], []⟩ [] [] [] [] (fun _ => none) 0 1
        (String.toList "!zzz") 0).replies = []) :=
  ⟨rfl, rfl⟩

/-- C5 amended: unknown-command feedback is sent only in the
direct-message path.  A prefixed command that reaches dispatch with a
name matching no `switch` arm yields, in public chat, no reply at all
(the `default` arm only logs a warning), and in a direct message the
explicit unknown-command reply. -/
theorem c5_unknown_command_feedback (cfg : Config)
    (permissions : Permissions) (banned muted : Ledger)
    (badWords : List Str) (roster : Roster)
    (rosterId : Str → Option UserId) (botId senderId : UserId)
    (msgP msgD : Str) (nowMs : ℚ)
    (hbot : senderId ≠ botId)
    (hmute : (isMuted muted senderId nowMs).1 = false)
    (hban : (isBanned banned senderId nowMs).1 = false)
    (hbad : containsBadWord badWords msgP = false)
    (hbare : bareEmoteStage cfg permissions roster senderId
      (lowerStr msgP) = none)
    (hloop : cfg.emoteDefs.find?
      (fun p => lowerStr msgP = lowerStr p.1) = none)
    (hpreP : cfg.prefixChars.isPrefixOf (lowerStr msgP) = true)
    (htargetP : ∀ u, parsedTargetArg cfg msgP = some u → (rosterId u).isSome)
    (hscopeP : bang (parsedCommand cfg msgP) ∈ cfg.public_chat_only
      ∨ bang (parsedCommand cfg msgP) ∈ cfg.dm_public_chat)
    (hroleP : hasPermission permissions senderId
      (requiredRoleFor cfg (parsedCommand cfg msgP)) = true)
    (hunkP : parsedCommand cfg msgP ∉ publicKnownCommands)
    (hpreD : cfg.prefixChars.isPrefixOf msgD = true)
    (htargetD : ∀ u, parsedTargetArg cfg msgD = some u → (rosterId u).isSome)
    (hscopeD : bang (parsedCommand cfg msgD) ∈ cfg.dm_only
      ∨ bang (parsedCommand cfg msgD) ∈ cfg.dm_public_chat)
    (hroleD : hasPermission permissions senderId
      (requiredRoleFor cfg (parsedCommand cfg msgD)) = true)
    (hunkD : parsedCommand cfg msgD ∉ dmKnownCommands) :
    ((publicRoute cfg permissions banned muted badWords roster rosterId botId
        senderId msgP nowMs).outcome = Outcome.unknown (parsedCommand cfg msgP))
    ∧ ((publicRoute cfg permissions banned muted badWords roster rosterId botId
        senderId msgP nowMs).replies = [])
    ∧ ((dmRoute cfg permissions banned muted rosterId botId senderId msgD
        nowMs).outcome = Outcome.unknown (parsedCommand cfg msgD))
    ∧ ((dmRoute cfg permissions banned muted rosterId botId senderId msgD
        nowMs).replies
      = [Reply.unknownCommandReply (parsedCommand cfg msgD)]) := by
  rw [publicRoute_reaches_dispatch cfg permissions banned muted badWords roster
    rosterId botId senderId msgP nowMs hbot hmute hban hbad hbare hloop
    hpreP htargetP]
  rw [dmRoute_reaches_dispatch cfg permissions banned muted rosterId botId
    senderId msgD nowMs hbot hmute hban hpreD htargetD]
  unfold publicScopeRoleDispatch dmScopeRoleDispatch
  rw [if_pos hscopeP, if_pos hscopeD]
  simp [hroleP, hroleD, hunkP, hunkD]

/-- C5 amended, applied: `!zzz` in public chat yields silence, `!qqq` by
DM yields the unknown-command reply. -/
theorem c5_witness :
    ((publicRoute cfgEx ⟨[], []⟩ [] [] [] [] (fun _ => none) 0 1
        (String.toList "!zzz") 0).replies = [])
    ∧ ((dmRoute cfgEx ⟨[], []⟩ [] [] (fun _ => none) 0 1
        (String.toList "!qqq") 0).replies
      = [Reply.unknownCommandReply (parsedCommand cfgEx (String.toList "!qqq"))]) :=
  let h := c5_unknown_command_feedback cfgEx ⟨[], []⟩ [] [] [] []
    (fun _ => none) 0 1 (String.toList "!zzz") (String.toList "!qqq") 0
    (by decide) rfl rfl rfl rfl rfl (by decide)
    (fun u hu => by
      rw [show parsedTargetArg cfgEx (String.toList "!zzz") = none from rfl]
        at hu
      cases hu)
    (by decide) (by decide) (by decide) (by decide)
    (fun u hu => by
      rw [show parsedTargetArg cfgEx (String.toList "!qqq") = none from rfl]
        at hu
      cases hu)
    (by decide) (by decide) (by decide)
  ⟨h.2.1, h.2.2.2⟩

end HRBot
